import Mathlib

/-!
Shallow embedding of `src/demexhealthfactor.py` (Demex health-factor
Telegram bot) and proofs about it.

Modelling conventions:
- Python floats are modelled as `Rat` (thresholds and health factors);
  comparison of finite floats agrees with comparison of the rationals
  they denote.
- The in-process dict `user_data` is modelled as an association list
  `Store` with Python-dict semantics: assignment replaces the value of
  an existing key in place, otherwise appends; `del` removes the key.
- Outbound effects (chat replies, push messages, HTTP GETs, file saves,
  log lines) are recorded in order in a `List Eff`.  Chat replies and
  pushes carry a structured `Msg`; each `Msg` constructor corresponds
  to exactly one `reply_text` / `send_message` call site of the source
  (the literal Python text is given in its doc comment), which keeps
  the model independent of Python float formatting.
- The HTTP world is an oracle `String → HttpResp` keyed by the address
  embedded into the request URL (the URL template is injective in the
  address).  A response carries its status, whether its Content-Type is
  acceptable to `aiohttp`'s `response.json()`, and the parse result of
  its body (`none` = the body text is not valid JSON).
- Python exceptions that escape a handler are modelled by
  `Option PyExn` / `Except PyExn` results; `aiohttp.ClientError`
  (including `ContentTypeError`) is distinguished from
  `json.JSONDecodeError`, `ValueError` and `TypeError`, because
  `check_health_factor` catches only `aiohttp.ClientError`.
-/

namespace Demex

/-- One subscription: `{'threshold': float, 'address': str}` as stored in
`user_data` (source lines 100-101). -/
structure Subscription where
  threshold : Rat
  address : String
deriving DecidableEq, Repr

/-- The `user_data` dict: subscriber id (string) to subscription, in
insertion order, as a Python dict. -/
abbrev Store := List (String × Subscription)

/-- Keys of the dict, in order. -/
def Store.keys (s : Store) : List String := s.map Prod.fst

/-- Dict lookup (`user_data[chat_id]`, `chat_id in user_data`). -/
def Store.find : Store → String → Option Subscription
  | [], _ => none
  | (k, v) :: r, key => if k = key then some v else Store.find r key

/-- Dict assignment `user_data[chat_id] = {...}`: replaces the value of an
existing key in place, otherwise appends at the end. -/
def Store.insert : Store → String → Subscription → Store
  | [], k, v => [(k, v)]
  | (k', v') :: r, k, v =>
      if k' = k then (k, v) :: r else (k', v') :: Store.insert r k v

/-- Dict deletion `del user_data[chat_id]`: removes the (unique) entry with
the given key. -/
def Store.erase : Store → String → Store
  | [], _ => []
  | (k', v') :: r, k => if k' = k then r else (k', v') :: Store.erase r k

/-- Number of entries stored under a given key. -/
def Store.countKey : Store → String → Nat
  | [], _ => 0
  | (k, _) :: r, key => (if k = key then 1 else 0) + Store.countKey r key

/-- The dict invariant: at most one entry per subscriber id. -/
def Store.NodupKeys (s : Store) : Prop := s.keys.Nodup

/-- JSON values, as produced by `json.loads`. -/
inductive JVal where
  | jnull
  | jbool (b : Bool)
  | jnum (q : Rat)
  | jstr (s : String)
  | jarr (xs : List JVal)
  | jobj (fields : List (String × JVal))

/-- Python exceptions distinguished by the source's `except` clauses:
`clientError` covers `aiohttp.ClientError` and its subclasses (including
`ContentTypeError`, raised by `response.json()` on a non-JSON
Content-Type); `jsonDecodeError` is `json.JSONDecodeError` (a
`ValueError`, not a `ClientError`); `valueError` and `typeError` arise
from `float(...)` / `int(...)` on unsuitable input, `attrError` from
calling `.get` on a non-dict. -/
inductive PyExn where
  | clientError
  | jsonDecodeError
  | valueError
  | typeError
  | attrError
deriving DecidableEq, Repr

/-- Outcome of `session.get(url)`: either a response (status code,
whether the Content-Type is acceptable to `response.json()`, and the
JSON parse result of the body text, `none` meaning malformed JSON), or
a network-level `aiohttp.ClientError` raised by the request itself. -/
inductive HttpResp where
  | resp (status : Nat) (ctJson : Bool) (body : Option JVal)
  | netError

/-- Log events, one per `logger.info` / `logger.error` call site of the
modelled functions. -/
inductive LogEv where
  | httpStatusError (status : Nat) (address : String)
  | networkError (address : String)
  | checkReceived (cid : String)
  | addressChecked (address : String)
  | currentUserData
  | foundMonitoring (cid : String)
  | fetchResult (address : String)
  | monitorSetup (cid : String) (address : String) (threshold : Rat)
  | monitorVerify
  | monitorFailed
  | fetchFailed (address : String) (cid : String)
  | addressRequested (address : String)
  | loadAttempt
  | loadSuccess
  | loadEmptyFile
  | loadNotFound
  | loadJsonError
  | saveAttempt
  | saveSuccess
deriving DecidableEq, Repr

/-- Outbound chat messages, one constructor per `reply_text` /
`send_message` call site. -/
inductive Msg where
  /-- "Welcome to the Demex Health Factor Monitor Bot! ..." (line 70). -/
  | startHelp
  /-- "Usage: /monitor &lt;threshold&gt; &lt;address&gt;" (line 88). -/
  | usageMonitor
  /-- "Invalid address. Demex addresses must start with 'swth'."
  (lines 97, 126, 177). -/
  | invalidAddress
  /-- "Started monitoring address {address} with threshold {threshold}"
  (lines 108-109). -/
  | startedMonitoring (address : String) (threshold : Rat)
  /-- "An error occurred while setting up monitoring. Please try again."
  (line 113). -/
  | monitorErrorMsg
  /-- "Checking..." (line 120). -/
  | checking
  /-- "Health factor for {address}: {health_factor}" (line 133). -/
  | healthFactorIs (address : String) (hf : Rat)
  /-- "Unable to fetch health factor. Please try again later."
  (lines 135, 184). -/
  | unableToFetch
  /-- "Currently monitoring address ... Current health factor: ..."
  (lines 149-153). -/
  | monitoringStatus (address : String) (threshold : Rat) (hf : Rat)
  /-- "Currently monitoring address ... Unable to fetch current health
  factor. Please try again later." (lines 155-159). -/
  | monitoringStatusUnavailable (address : String) (threshold : Rat)
  /-- "Usage: /check &lt;address&gt; or set up monitoring first with /monitor"
  (line 161). -/
  | usageCheckOrMonitor
  /-- "Monitoring stopped." (line 169). -/
  | monitoringStopped
  /-- "You were not monitoring any address." (line 171). -/
  | wasNotMonitoring
  /-- "Current health factor for {address}: {health_factor}" (line 182). -/
  | currentHealthFactor (address : String) (hf : Rat)
  /-- "Alert: Health factor for {address} is {hf}, which is below your
  threshold of {threshold}! ..." (lines 202-203). -/
  | alert (address : String) (hf : Rat) (threshold : Rat)
  /-- "Unable to fetch health factor for {address}. Please check the
  logs for more information." (line 209). -/
  | unableToFetchPush (address : String)
deriving DecidableEq, Repr

/-- Observable effects, in program order: a chat reply
(`update.message.reply_text`), a push (`context.bot.send_message`), an
HTTP GET (`session.get(url)`), a call to `save_user_data` with the
mapping being persisted, or a log line. -/
inductive Eff where
  | reply (m : Msg)
  | push (chatId : Int) (m : Msg)
  | fetch (url : String)
  | save (data : Store)
  | logInfo (e : LogEv)
  | logError (e : LogEv)
deriving DecidableEq, Repr

/-- The chat replies contained in an effect trace, in order. -/
def repliesOf (effs : List Eff) : List Msg :=
  effs.filterMap fun e => match e with | .reply m => some m | _ => none

/-- The push messages contained in an effect trace, in order. -/
def pushesOf (effs : List Eff) : List (Int × Msg) :=
  effs.filterMap fun e => match e with | .push c m => some (c, m) | _ => none

/-- The HTTP GETs contained in an effect trace, in order. -/
def fetchesOf (effs : List Eff) : List String :=
  effs.filterMap fun e => match e with | .fetch u => some u | _ => none

/-- The persisted mappings contained in an effect trace, in order. -/
def savesOf (effs : List Eff) : List Store :=
  effs.filterMap fun e => match e with | .save d => some d | _ => none

/-- The request URL (line 54):
`https://api.carbon.network/carbon/cdp/v1/health_factor/{address}`. -/
def urlOf (address : String) : String :=
  "https://api.carbon.network/carbon/cdp/v1/health_factor/" ++ address

/-- Model of Python `str.startswith`. -/
def pyStartsWith (s pat : String) : Bool := pat.data.isPrefixOf s.data

/-- Model of Python `str.strip()` (whitespace on both ends). -/
def pyStrip (s : String) : String :=
  ⟨((s.data.dropWhile Char.isWhitespace).reverse.dropWhile
      Char.isWhitespace).reverse⟩

/-- Numeric value of a digit list. -/
def digitsVal (cs : List Char) : Nat :=
  cs.foldl (fun a c => 10 * a + (c.toNat - 48)) 0

/-- Model of Python `float(s)` on strings, restricted to plain decimal
literals `[+-]digits[.digits]` (the fragment exercised here; Python also
accepts exponents, `inf`, `nan`, underscores and surrounding
whitespace).  Returns `none` where `float` raises `ValueError`. -/
def pyParseFloat (s : String) : Option Rat :=
  let core : List Char → Option Rat := fun cs =>
    let ip := cs.takeWhile Char.isDigit
    match cs.dropWhile Char.isDigit with
    | [] => if ip = [] then none else some (digitsVal ip)
    | '.' :: fp =>
        if fp.all Char.isDigit ∧ (ip ≠ [] ∨ fp ≠ []) then
          some ((digitsVal ip : Rat) + (digitsVal fp : Rat) / (10 ^ fp.length : Nat))
        else none
    | _ => none
  match s.data with
  | '-' :: cs => (core cs).map Neg.neg
  | '+' :: cs => core cs
  | cs => core cs

/-- Model of Python `int(s)` on strings, restricted to `[+-]digits`
(Python also strips whitespace and accepts underscores).  Returns
`none` where `int` raises `ValueError`. -/
def pyInt (s : String) : Option Int :=
  let core : List Char → Option Nat := fun cs =>
    if cs ≠ [] ∧ cs.all Char.isDigit then some (digitsVal cs) else none
  match s.data with
  | '-' :: cs => (core cs).map fun n => -(n : Int)
  | '+' :: cs => (core cs).map fun n => (n : Int)
  | cs => (core cs).map fun n => (n : Int)

/-- Lookup of a key among the fields of a parsed JSON object. -/
def jLookup : List (String × JVal) → String → Option JVal
  | [], _ => none
  | (k, v) :: r, key => if k = key then some v else jLookup r key

/-- Python `data.get(key, default)`: on a dict, the field's value or the
default; on anything else `.get` raises `AttributeError`. -/
def dictGet (data : JVal) (key : String) (dflt : JVal) : Except PyExn JVal :=
  match data with
  | .jobj fields =>
      match jLookup fields key with
      | some v => .ok v
      | none => .ok dflt
  | _ => .error .attrError

/-- Python `float(v)` on a JSON value: numbers are themselves, booleans
are 0/1, strings are parsed (or `ValueError`), everything else is
`TypeError`. -/
def pyFloat (v : JVal) : Except PyExn Rat :=
  match v with
  | .jnum q => .ok q
  | .jbool b => .ok (if b then 1 else 0)
  | .jstr s =>
      match pyParseFloat (pyStrip s) with
      | some q => .ok q
      | none => .error .valueError
  | _ => .error .typeError

/-- `response.json()`: raises `ContentTypeError` (an
`aiohttp.ClientError`) when the Content-Type is not JSON, raises
`json.JSONDecodeError` when the body text is not valid JSON, and
otherwise returns the parsed value. -/
def respJson (ctJson : Bool) (body : Option JVal) : Except PyExn JVal :=
  if ctJson then
    match body with
    | some v => .ok v
    | none => .error .jsonDecodeError
  else .error .clientError

/-- `check_health_factor(address)` (source lines 53-66).  Issues the GET
(recorded as a `fetch` effect); on status 200 parses the body and
returns `float(data.get('health_factor', 0))`; on any other status logs
and returns `None`; an `aiohttp.ClientError` anywhere in the `try` is
caught, logged, and turns into `None`; any other exception
(`json.JSONDecodeError` from `response.json()`, `ValueError` /
`TypeError` from `float`, `AttributeError` from `.get`) escapes.
`Except.ok none` is Python `None`; `Except.error e` is an escaped
exception. -/
def checkHealthFactor (world : String → HttpResp) (address : String) :
    List Eff × Except PyExn (Option Rat) :=
  let url := urlOf address
  match world address with
  | .netError => ([.fetch url, .logError (.networkError address)], .ok none)
  | .resp status ctJson body =>
      if status = 200 then
        match respJson ctJson body with
        | .error .clientError =>
            ([.fetch url, .logError (.networkError address)], .ok none)
        | .error e => ([.fetch url], .error e)
        | .ok data =>
            match dictGet data "health_factor" (.jnum 0) with
            | .error e => ([.fetch url], .error e)
            | .ok v =>
                match pyFloat v with
                | .error e => ([.fetch url], .error e)
                | .ok q => ([.fetch url], .ok (some q))
      else
        ([.fetch url, .logError (.httpStatusError status address)], .ok none)

/-- `check_and_notify(context, chat_id)` (source lines 189-210).  First
converts the chat id string with `int(...)` (raising `ValueError` on a
non-numeric string), then returns silently when the id has no
subscription; otherwise fetches the subscribed address's health factor
and pushes an alert when it is strictly below the threshold, or an
"unable to fetch" push (after an error log) when the fetch returned
`None`.  The function never mutates `user_data`, so no store is
returned. -/
def checkAndNotify (world : String → HttpResp) (store : Store)
    (cidStr : String) : List Eff × Option PyExn :=
  match pyInt cidStr with
  | none => ([], some .valueError)
  | some n =>
      match Store.find store cidStr with
      | none => ([], none)
      | some sub =>
          let r := checkHealthFactor world sub.address
          match r.2 with
          | .error e => (r.1, some e)
          | .ok (some hf) =>
              if hf < sub.threshold then
                (r.1 ++ [.push n (.alert sub.address hf sub.threshold)], none)
              else (r.1, none)
          | .ok none =>
              (r.1 ++ [.logError (.fetchFailed sub.address cidStr),
                       .push n (.unableToFetchPush sub.address)], none)

/-- `monitor(update, context)` (source lines 86-113).  With other than
two arguments replies with the usage text; otherwise, inside
`try/except Exception`, parses the threshold with `float` (a parse
failure is caught and answered with the generic error message, since
`float(args[0])` runs before the address check), rejects addresses not
starting with `swth`, and on success assigns the subscription into
`user_data`, saves, re-loads for verification (a log line), replies
with the confirmation, and runs one `check_and_notify`; an exception
escaping from that is caught and answered with the generic error
message.  The store assignment precedes any possible exception, so the
returned store is the updated one on every success path. -/
def monitor (world : String → HttpResp) (store : Store) (cid : Int)
    (args : List String) : Store × List Eff :=
  match args with
  | [t, a] =>
      let cidStr := toString cid
      match pyParseFloat t with
      | none => (store, [.logError .monitorFailed, .reply .monitorErrorMsg])
      | some th =>
          if pyStartsWith a "swth" then
            let store' := Store.insert store cidStr ⟨th, a⟩
            let pre : List Eff :=
              [.logInfo (.monitorSetup cidStr a th), .save store',
               .logInfo .monitorVerify, .reply (.startedMonitoring a th)]
            let r := checkAndNotify world store' cidStr
            match r.2 with
            | none => (store', pre ++ r.1)
            | some _ =>
                (store', pre ++ r.1 ++
                  [.logError .monitorFailed, .reply .monitorErrorMsg])
          else (store, [.reply .invalidAddress])
  | _ => (store, [.reply .usageMonitor])

/-- `check(update, context)` (source lines 116-161).  Logs, replies
"Checking...", and then: with an address argument, validates the `swth`
start and does a one-off fetch-and-reply (never touching the store);
with no argument, looks up the caller's subscription and either
fetches and reports it or replies with the usage/not-monitoring text.
The fetch is not wrapped in a `try`, so an escaping exception from
`check_health_factor` propagates (third component).  The store is
returned unchanged on every path: the handler never mutates it. -/
def check (world : String → HttpResp) (store : Store) (cid : Int)
    (args : List String) : Store × List Eff × Option PyExn :=
  let cidStr := toString cid
  let pre : List Eff := [.logInfo (.checkReceived cidStr), .reply .checking]
  match args with
  | addr :: _ =>
      if pyStartsWith addr "swth" then
        let pre2 := pre ++ [Eff.logInfo (.addressChecked addr)]
        let r := checkHealthFactor world addr
        match r.2 with
        | .error e => (store, pre2 ++ r.1, some e)
        | .ok (some hf) =>
            (store, pre2 ++ r.1 ++ [.reply (.healthFactorIs addr hf)], none)
        | .ok none =>
            (store, pre2 ++ r.1 ++ [.reply .unableToFetch], none)
      else (store, pre ++ [.reply .invalidAddress], none)
  | [] =>
      let pre2 := pre ++ [Eff.logInfo .currentUserData]
      match Store.find store cidStr with
      | some sub =>
          let pre3 := pre2 ++ [Eff.logInfo (.foundMonitoring cidStr)]
          let r := checkHealthFactor world sub.address
          match r.2 with
          | .error e => (store, pre3 ++ r.1, some e)
          | .ok (some hf) =>
              (store, pre3 ++ r.1 ++
                [.logInfo (.fetchResult sub.address),
                 .reply (.monitoringStatus sub.address sub.threshold hf)],
               none)
          | .ok none =>
              (store, pre3 ++ r.1 ++
                [.logInfo (.fetchResult sub.address),
                 .reply (.monitoringStatusUnavailable sub.address
                           sub.threshold)],
               none)
      | none => (store, pre2 ++ [.reply .usageCheckOrMonitor], none)

/-- `stop(update, context)` (source lines 164-171): deletes the caller's
entry when present, saves, and confirms; otherwise replies that nothing
was being monitored. -/
def stop (store : Store) (cid : Int) : Store × List Eff :=
  let cidStr := toString cid
  match Store.find store cidStr with
  | some _ =>
      let store' := Store.erase store cidStr
      (store', [.save store', .reply .monitoringStopped])
  | none => (store, [.reply .wasNotMonitoring])

/-- `handle_address(update, context)` (source lines 174-186): strips the
free-text message, rejects it unless it starts with `swth`, otherwise
does a one-off fetch-and-reply followed by an info log.  The store is
returned unchanged on every path: the handler never touches it.  The
unguarded fetch can propagate an exception (third component). -/
def handleAddress (world : String → HttpResp) (store : Store)
    (text : String) : Store × List Eff × Option PyExn :=
  let address := pyStrip text
  if pyStartsWith address "swth" then
    let r := checkHealthFactor world address
    match r.2 with
    | .error e => (store, r.1, some e)
    | .ok (some hf) =>
        (store, r.1 ++ [.reply (.currentHealthFactor address hf),
                        .logInfo (.addressRequested address)], none)
    | .ok none =>
        (store, r.1 ++ [.reply .unableToFetch,
                        .logInfo (.addressRequested address)], none)
  else (store, [.reply .invalidAddress], none)

/-- One `check_and_notify` task per snapshot key, effects serialized in
key order (the source fans the tasks out with `asyncio.gather`; each
task's own effects are ordered, and we serialize the tasks).  The
returned exception is the first one any task raised. -/
def runTasks (world : String → HttpResp) (store : Store) :
    List String → List Eff × Option PyExn
  | [] => ([], none)
  | c :: cs =>
      let r1 := checkAndNotify world store c
      let r2 := runTasks world store cs
      (r1.1 ++ r2.1, r1.2 <|> r2.2)

/-- `periodic_check(context)` (source lines 213-216): runs
`check_and_notify` for every key of a snapshot (`user_data.copy()`) of
the mapping taken at the start of the cycle. -/
def periodicCheck (world : String → HttpResp) (store : Store) :
    List Eff × Option PyExn :=
  runTasks world store store.keys

/-- State of the storage file, with the body of a present, non-blank
file abstracted by its JSON parse result: `absent` = no file
(`FileNotFoundError` on open), `blank` = `content.strip()` is empty,
`malformed` = non-blank but `json.loads` raises, `stored j` = non-blank
and parsing to `j`.  (`json.dump` writes a text whose parse is exactly
the dumped value, so file content is modelled up to JSON concrete
syntax.) -/
inductive FileState where
  | absent
  | blank
  | malformed
  | stored (j : JVal)

/-- `load_user_data()` (source lines 20-37): the parsed content of a
non-blank well-formed file, and `{}` (without raising) when the file is
absent, blank, or fails to parse — a parse failure being logged as an
error.  All three failure shapes are caught inside the function; the
model is correspondingly total. -/
def loadUserData : FileState → JVal × List Eff
  | .absent => (.jobj [], [.logInfo .loadAttempt, .logInfo .loadNotFound])
  | .blank => (.jobj [], [.logInfo .loadAttempt, .logInfo .loadEmptyFile])
  | .malformed =>
      (.jobj [], [.logInfo .loadAttempt, .logError .loadJsonError])
  | .stored j => (j, [.logInfo .loadAttempt, .logInfo .loadSuccess])

/-- `save_user_data(data)` (source lines 40-47): overwrites the storage
target with the serialization of the whole mapping (write failures are
caught and logged in the source; the model records the successful
write). -/
def saveUserData (data : JVal) : FileState × List Eff :=
  (.stored data, [.logInfo .saveAttempt, .logInfo .saveSuccess])

/-- Spec-side description of the pushes one periodic cycle should emit
(used to state claim C8): per subscription, in snapshot order, an alert
exactly when the fetched value is below the threshold, and an
unable-to-fetch push when the fetch failed.  `ci` gives each key's
numeric chat id and `r` each address's fetch outcome. -/
def specPushOf (n : Int) (sub : Subscription) : Option Rat → List (Int × Msg)
  | some v =>
      if v < sub.threshold then [(n, .alert sub.address v sub.threshold)]
      else []
  | none => [(n, .unableToFetchPush sub.address)]

/-- Spec-side description of the pushes of a whole cycle, per
subscription in snapshot order. -/
def specPushes (ci : String → Int) (r : String → Option Rat) :
    Store → List (Int × Msg)
  | [] => []
  | (c, sub) :: rest =>
      specPushOf (ci c) sub (r sub.address) ++ specPushes ci r rest

/-! ## Helper lemmas about the store -/

lemma Store.find_insert_self (s : Store) (k : String) (v : Subscription) :
    Store.find (Store.insert s k v) k = some v := by
  induction s with
  | nil => simp [Store.insert, Store.find]
  | cons p r ih =>
      obtain ⟨k', v'⟩ := p
      by_cases h : k' = k
      · simp [Store.insert, Store.find, h]
      · simp [Store.insert, Store.find, h, ih]

lemma Store.keys_cons (k : String) (v : Subscription) (r : Store) :
    Store.keys ((k, v) :: r) = k :: Store.keys r := rfl

lemma Store.mem_keys_insert {x k : String} (s : Store) (v : Subscription) :
    x ∈ Store.keys (Store.insert s k v) ↔ x ∈ Store.keys s ∨ x = k := by
  induction s with
  | nil => simp [Store.insert, Store.keys]
  | cons p r ih =>
      obtain ⟨k', v'⟩ := p
      by_cases h : k' = k
      · rw [show Store.insert ((k', v') :: r) k v = (k, v) :: r from by
          simp [Store.insert, h]]
        simp only [Store.keys_cons, List.mem_cons]
        subst h
        tauto
      · rw [show Store.insert ((k', v') :: r) k v
            = (k', v') :: Store.insert r k v from by simp [Store.insert, h]]
        simp only [Store.keys_cons, List.mem_cons, ih]
        tauto

lemma Store.nodupKeys_insert {s : Store} (k : String) (v : Subscription)
    (h : Store.NodupKeys s) : Store.NodupKeys (Store.insert s k v) := by
  induction s with
  | nil => simp [Store.insert, Store.NodupKeys, Store.keys]
  | cons p r ih =>
      obtain ⟨k', v'⟩ := p
      rw [Store.NodupKeys, Store.keys_cons, List.nodup_cons] at h
      by_cases hk : k' = k
      · subst hk
        simpa [Store.insert, Store.NodupKeys, Store.keys_cons,
          List.nodup_cons] using h
      · rw [Store.NodupKeys, Store.insert, if_neg hk, Store.keys_cons,
          List.nodup_cons]
        refine ⟨fun hm => ?_, ih h.2⟩
        rcases (Store.mem_keys_insert r v).mp hm with hm' | hm'
        · exact h.1 hm'
        · exact hk hm'

lemma Store.countKey_eq_zero_of_not_mem {s : Store} {k : String}
    (h : k ∉ Store.keys s) : Store.countKey s k = 0 := by
  induction s with
  | nil => rfl
  | cons p r ih =>
      obtain ⟨k', v'⟩ := p
      rw [Store.keys_cons, List.mem_cons] at h
      push_neg at h
      simp [Store.countKey, Ne.symm h.1, ih h.2]

lemma Store.countKey_insert_self {s : Store} (k : String) (v : Subscription)
    (h : Store.NodupKeys s) : Store.countKey (Store.insert s k v) k = 1 := by
  induction s with
  | nil => simp [Store.insert, Store.countKey]
  | cons p r ih =>
      obtain ⟨k', v'⟩ := p
      rw [Store.NodupKeys, Store.keys_cons, List.nodup_cons] at h
      by_cases hk : k' = k
      · subst hk
        simp [Store.insert, Store.countKey,
          Store.countKey_eq_zero_of_not_mem h.1]
      · simp [Store.insert, hk, Store.countKey, ih h.2]

lemma Store.mem_keys_of_mem_keys_erase {s : Store} {k x : String}
    (h : x ∈ Store.keys (Store.erase s k)) : x ∈ Store.keys s := by
  induction s with
  | nil => simpa [Store.erase] using h
  | cons p r ih =>
      obtain ⟨k', v'⟩ := p
      by_cases hk : k' = k
      · rw [Store.erase, if_pos hk] at h
        exact (Store.keys_cons k' v' r ▸ List.mem_cons_of_mem _ h)
      · rw [Store.erase, if_neg hk, Store.keys_cons] at h
        rcases List.mem_cons.mp h with h' | h'
        · exact h' ▸ List.mem_cons_self _ _
        · exact List.mem_cons_of_mem _ (ih h')

lemma Store.nodupKeys_erase {s : Store} (k : String)
    (h : Store.NodupKeys s) : Store.NodupKeys (Store.erase s k) := by
  induction s with
  | nil => simpa [Store.erase] using h
  | cons p r ih =>
      obtain ⟨k', v'⟩ := p
      rw [Store.NodupKeys, Store.keys_cons, List.nodup_cons] at h
      by_cases hk : k' = k
      · rw [Store.erase, if_pos hk]
        exact h.2
      · rw [Store.erase, if_neg hk, Store.NodupKeys, Store.keys_cons,
          List.nodup_cons]
        exact ⟨fun hm => h.1 (Store.mem_keys_of_mem_keys_erase hm), ih h.2⟩

/-! ## Helper lemmas about effect traces -/

lemma pushesOf_append (a b : List Eff) :
    pushesOf (a ++ b) = pushesOf a ++ pushesOf b := by
  simp [pushesOf, List.filterMap_append]

lemma repliesOf_append (a b : List Eff) :
    repliesOf (a ++ b) = repliesOf a ++ repliesOf b := by
  simp [repliesOf, List.filterMap_append]

lemma pushesOf_checkHealthFactor (w : String → HttpResp) (a : String) :
    pushesOf (checkHealthFactor w a).1 = [] := by
  unfold checkHealthFactor
  cases hw : w a with
  | netError => simp [pushesOf]
  | resp status ct body =>
      dsimp only
      repeat' split
      all_goals simp [pushesOf]

lemma repliesOf_checkHealthFactor (w : String → HttpResp) (a : String) :
    repliesOf (checkHealthFactor w a).1 = [] := by
  unfold checkHealthFactor
  cases hw : w a with
  | netError => simp [repliesOf]
  | resp status ct body =>
      dsimp only
      repeat' split
      all_goals simp [repliesOf]

/-- Behaviour of one notification check when the id is numeric, a
subscription exists, and the fetch returns (rather than raises). -/
lemma checkAndNotify_ok (w : String → HttpResp) (store : Store)
    (c : String) (n : Int) (sub : Subscription) (ro : Option Rat)
    (h1 : pyInt c = some n) (h2 : Store.find store c = some sub)
    (h3 : (checkHealthFactor w sub.address).2 = .ok ro) :
    pushesOf (checkAndNotify w store c).1 = specPushOf n sub ro
    ∧ (checkAndNotify w store c).2 = none := by
  unfold checkAndNotify
  rw [h1, h2]
  dsimp only
  have hpf := pushesOf_checkHealthFactor w sub.address
  rcases hcf : checkHealthFactor w sub.address with ⟨fx, res⟩
  rw [hcf] at h3 hpf
  dsimp only at h3 hpf ⊢
  subst h3
  rcases ro with _ | v
  · refine ⟨?_, rfl⟩
    rw [pushesOf_append, hpf]
    simp [pushesOf, specPushOf]
  · by_cases hv : v < sub.threshold
    · simp only [if_pos hv]
      refine ⟨?_, trivial⟩
      rw [pushesOf_append, hpf]
      simp [pushesOf, specPushOf, hv]
    · simp only [if_neg hv]
      refine ⟨?_, trivial⟩
      rw [hpf]
      simp [specPushOf, hv]

/-- The store enters `check_and_notify` only through the lookup of the
given key, so stores agreeing there behave identically. -/
lemma checkAndNotify_congr (w : String → HttpResp) {s1 s2 : Store}
    (c : String) (h : Store.find s1 c = Store.find s2 c) :
    checkAndNotify w s1 c = checkAndNotify w s2 c := by
  unfold checkAndNotify
  rw [h]

lemma runTasks_congr (w : String → HttpResp) {s1 s2 : Store}
    (ks : List String)
    (h : ∀ k ∈ ks, Store.find s1 k = Store.find s2 k) :
    runTasks w s1 ks = runTasks w s2 ks := by
  induction ks with
  | nil => rfl
  | cons c cs ih =>
      unfold runTasks
      rw [checkAndNotify_congr w c (h c (List.mem_cons_self c cs)),
        ih fun k hk => h k (List.mem_cons_of_mem c hk)]

/-- With two valid arguments, a parseable threshold and a `swth` address,
`monitor` always leaves the dict updated at the caller's key (the
assignment precedes any exception the inline notification may raise). -/
lemma monitor_store_valid (w : String → HttpResp) (st : Store) (c : Int)
    (t a : String) (th : Rat)
    (ht : pyParseFloat t = some th) (hg : pyStartsWith a "swth" = true) :
    (monitor w st c [t, a]).1 = Store.insert st (toString c) ⟨th, a⟩ := by
  simp only [monitor, ht, hg, eq_self_iff_true, if_true]
  split <;> rfl

/-- Unfolding one task of a cycle. -/
lemma runTasks_cons (w : String → HttpResp) (st : Store) (c : String)
    (cs : List String) :
    runTasks w st (c :: cs)
      = ((checkAndNotify w st c).1 ++ (runTasks w st cs).1,
         (checkAndNotify w st c).2 <|> (runTasks w st cs).2) := rfl

/-- When the fetch returns the `None` outcome, `/check <address>` shows
the user the checking notice followed by the generic retry-later
message, and raises nothing. -/
lemma check_reply_unavailable (w : String → HttpResp) (store : Store)
    (cid : Int) (addr : String)
    (ha : pyStartsWith addr "swth" = true)
    (hres : (checkHealthFactor w addr).2 = .ok none) :
    repliesOf (check w store cid [addr]).2.1 = [.checking, .unableToFetch]
    ∧ (check w store cid [addr]).2.2 = none := by
  simp only [check, ha, eq_self_iff_true, if_true]
  have hrf := repliesOf_checkHealthFactor w addr
  rcases hcf : checkHealthFactor w addr with ⟨fx, res⟩
  rw [hcf] at hres hrf
  dsimp only at hres hrf ⊢
  subst hres
  refine ⟨?_, rfl⟩
  rw [repliesOf_append, repliesOf_append, hrf]
  simp [repliesOf]

/-! ## Claims -/

/-- C2 (counterexample): the claim says a 200 response whose body is
malformed JSON collapses to the "unavailable" outcome, but
`json.JSONDecodeError` raised by `response.json()` is not an
`aiohttp.ClientError`, so it escapes `check_health_factor` instead of
becoming the `None` outcome. -/
theorem malformed_json_escapes :
    (checkHealthFactor (fun _ => .resp 200 true none) "swthabc").2
        = .error .jsonDecodeError
    ∧ (checkHealthFactor (fun _ => .resp 200 true none) "swthabc").2
        ≠ .ok none :=
  ⟨rfl, fun h => nomatch h⟩

/-- C2 (amended): for every fetch failing with a non-200 status, a
network-level error, or a 200 response whose Content-Type is not JSON
(an `aiohttp.ContentTypeError`), the client returns the single `None`
("unavailable") outcome — never a numeric value — the cause is logged
as an error, and `/check <address>` then shows the user the generic
retry-later message rather than a number.  (A 200 response whose body
is malformed JSON under a JSON Content-Type instead raises an uncaught
`json.JSONDecodeError`; see the counterexample.) -/
theorem fetch_failure_unavailable (w : String → HttpResp) (addr : String)
    (hfail : w addr = .netError
      ∨ (∃ status ct body, w addr = .resp status ct body ∧ status ≠ 200)
      ∨ (∃ body, w addr = .resp 200 false body)) :
    (checkHealthFactor w addr).2 = .ok none
    ∧ (∃ e, Eff.logError e ∈ (checkHealthFactor w addr).1)
    ∧ (∀ (store : Store) (cid : Int), pyStartsWith addr "swth" = true →
        repliesOf (check w store cid [addr]).2.1
            = [.checking, .unableToFetch]
        ∧ (check w store cid [addr]).2.2 = none) := by
  have hres : (checkHealthFactor w addr).2 = .ok none := by
    rcases hfail with h | ⟨status, ct, body, h, hs⟩ | ⟨body, h⟩
    · simp [checkHealthFactor, h]
    · simp [checkHealthFactor, h, hs]
    · simp [checkHealthFactor, h, respJson]
  have hlog : ∃ e, Eff.logError e ∈ (checkHealthFactor w addr).1 := by
    rcases hfail with h | ⟨status, ct, body, h, hs⟩ | ⟨body, h⟩
    · exact ⟨.networkError addr, by simp [checkHealthFactor, h]⟩
    · exact ⟨.httpStatusError status addr, by simp [checkHealthFactor, h, hs]⟩
    · exact ⟨.networkError addr, by simp [checkHealthFactor, h, respJson]⟩
  exact ⟨hres, hlog,
    fun store cid ha => check_reply_unavailable w store cid addr ha hres⟩

/-- C2 witness: instantiation at a network error for a valid address. -/
theorem fetch_failure_unavailable_witness :
    (checkHealthFactor (fun _ => .netError) "swthabc").2 = .ok none
    ∧ (∃ e, Eff.logError e
        ∈ (checkHealthFactor (fun _ => .netError) "swthabc").1)
    ∧ (∀ (store : Store) (cid : Int),
        pyStartsWith "swthabc" "swth" = true →
        repliesOf (check (fun _ => .netError) store cid ["swthabc"]).2.1
            = [.checking, .unableToFetch]
        ∧ (check (fun _ => .netError) store cid ["swthabc"]).2.2 = none) :=
  fetch_failure_unavailable (fun _ => .netError) "swthabc" (Or.inl rfl)

/-- C3: a 200 response whose JSON object lacks a `health_factor` field
yields exactly the numeric value 0, not a failure outcome. -/
theorem absent_field_defaults_to_zero (w : String → HttpResp)
    (addr : String) (flds : List (String × JVal))
    (hresp : w addr = .resp 200 true (some (.jobj flds)))
    (habs : jLookup flds "health_factor" = none) :
    (checkHealthFactor w addr).2 = .ok (some 0) := by
  simp [checkHealthFactor, hresp, respJson, dictGet, habs, pyFloat]

/-- C3 witness: a body `{"foo": null}` without the field. -/
theorem absent_field_defaults_to_zero_witness :
    (checkHealthFactor
      (fun _ => .resp 200 true (some (.jobj [("foo", .jnull)])))
      "swthabc").2 = .ok (some 0) :=
  absent_field_defaults_to_zero _ "swthabc" [("foo", .jnull)] rfl rfl

/-- C6: loading from an absent, blank, or unparseable storage file
yields the empty mapping (the model is total, mirroring that the source
catches all three shapes), and the parse failure is logged as an
error. -/
theorem load_missing_empty_or_malformed :
    (loadUserData .absent).1 = .jobj []
    ∧ (loadUserData .blank).1 = .jobj []
    ∧ (loadUserData .malformed).1 = .jobj []
    ∧ Eff.logError .loadJsonError ∈ (loadUserData .malformed).2 :=
  ⟨rfl, rfl, rfl, by simp [loadUserData]⟩

/-- C7: saving the result of loading a non-empty stored mapping leaves
the persisted content as it was. -/
theorem save_load_roundtrip (flds : List (String × JVal))
    (_h : flds ≠ []) :
    (saveUserData (loadUserData (.stored (.jobj flds))).1).1
        = .stored (.jobj flds) := rfl

/-- C7 witness: round trip on a one-entry mapping. -/
theorem save_load_roundtrip_witness :
    ([("1", JVal.jnull)] : List (String × JVal)) ≠ []
    ∧ (saveUserData (loadUserData (.stored (.jobj [("1", .jnull)]))).1).1
        = .stored (.jobj [("1", .jnull)]) :=
  ⟨by simp, save_load_roundtrip [("1", .jnull)] (by simp)⟩

/-- C9: for a chat id (a numeric string, as produced from the chat
platform's integer ids) with no subscription, `check_and_notify` sends
no message, performs no fetch and saves nothing (its effect list is
empty) and returns silently (no exception); it also never touches the
store. -/
theorem notify_without_subscription_silent (w : String → HttpResp)
    (store : Store) (cid : String)
    (h1 : (pyInt cid).isSome = true)
    (h2 : Store.find store cid = none) :
    checkAndNotify w store cid = ([], none) := by
  obtain ⟨n, hn⟩ := Option.isSome_iff_exists.mp h1
  simp [checkAndNotify, hn, h2]

/-- C9 witness: chat id "5" against the empty store. -/
theorem notify_without_subscription_silent_witness :
    (pyInt "5").isSome = true
    ∧ checkAndNotify (fun _ => .netError) [] "5" = ([], none) :=
  ⟨by decide,
   notify_without_subscription_silent (fun _ => .netError) [] "5"
     (by decide) rfl⟩

/-- C1: for an address not starting with `swth`, each of the three entry
points — `/monitor <threshold> <address>` (with a parseable threshold,
since the source parses the threshold first), `/check <address>`, and
the free-text handler (whose address is the stripped message text) —
replies with the invalid-address message, leaves the store untouched,
and issues no HTTP fetch and no save (the full effect traces are
exactly the listed replies). -/
theorem invalid_address_rejected (w1 w2 w3 : String → HttpResp)
    (s1 s2 s3 : Store) (cid : Int) (t addr text : String) (th : Rat)
    (ht : pyParseFloat t = some th)
    (ha : pyStartsWith addr "swth" = false)
    (htext : pyStrip text = addr) :
    monitor w1 s1 cid [t, addr] = (s1, [.reply .invalidAddress])
    ∧ check w2 s2 cid [addr]
        = (s2, [.logInfo (.checkReceived (toString cid)), .reply .checking,
                .reply .invalidAddress], none)
    ∧ handleAddress w3 s3 text = (s3, [.reply .invalidAddress], none) := by
  refine ⟨?_, ?_, ?_⟩
  · simp [monitor, ht, ha]
  · simp [check, ha]
  · simp [handleAddress, htext, ha]

/-- C1 witness: the non-`swth` address "cosmos1a" at every entry
point. -/
theorem invalid_address_rejected_witness :
    monitor (fun _ => .netError) [] 7 ["2", "cosmos1a"]
        = ([], [.reply .invalidAddress])
    ∧ check (fun _ => .netError) [] 7 ["cosmos1a"]
        = ([], [.logInfo (.checkReceived (toString (7 : Int))),
                .reply .checking, .reply .invalidAddress], none)
    ∧ handleAddress (fun _ => .netError) [] "cosmos1a"
        = ([], [.reply .invalidAddress], none) :=
  invalid_address_rejected (fun _ => .netError) (fun _ => .netError)
    (fun _ => .netError) [] [] [] 7 "2" "cosmos1a" "cosmos1a" 2
    (by decide) (by decide) (by decide)

/-- C4: two valid `/monitor` commands by the same subscriber leave
exactly one subscription under that subscriber's key — the later
command's threshold and address — and every mutating operation
(`monitor`, `stop`, on any arguments) preserves the at-most-one-per-id
invariant. -/
theorem monitor_update_semantics (w1 w2 : String → HttpResp)
    (store : Store) (cid : Int) (t1 a1 t2 a2 : String) (th1 th2 : Rat)
    (h1 : pyParseFloat t1 = some th1) (h2 : pyParseFloat t2 = some th2)
    (g1 : pyStartsWith a1 "swth" = true)
    (g2 : pyStartsWith a2 "swth" = true)
    (hnd : Store.NodupKeys store) :
    Store.find (monitor w2 (monitor w1 store cid [t1, a1]).1 cid
        [t2, a2]).1 (toString cid) = some ⟨th2, a2⟩
    ∧ Store.countKey (monitor w2 (monitor w1 store cid [t1, a1]).1 cid
        [t2, a2]).1 (toString cid) = 1
    ∧ Store.NodupKeys (monitor w2 (monitor w1 store cid [t1, a1]).1 cid
        [t2, a2]).1
    ∧ (∀ (w : String → HttpResp) (st : Store) (c : Int) (ar : List String),
        Store.NodupKeys st →
          Store.NodupKeys (monitor w st c ar).1
          ∧ Store.NodupKeys (stop st c).1) := by
  rw [monitor_store_valid w1 store cid t1 a1 th1 h1 g1,
      monitor_store_valid w2 _ cid t2 a2 th2 h2 g2]
  have hnd1 : Store.NodupKeys (Store.insert store (toString cid) ⟨th1, a1⟩) :=
    Store.nodupKeys_insert _ _ hnd
  refine ⟨Store.find_insert_self _ _ _,
    Store.countKey_insert_self _ _ hnd1,
    Store.nodupKeys_insert _ _ hnd1, ?_⟩
  intro w st c ar hst
  constructor
  · rcases ar with _ | ⟨t, _ | ⟨a, _ | ⟨x, rest⟩⟩⟩
    · simpa [monitor] using hst
    · simpa [monitor] using hst
    · cases hp : pyParseFloat t with
      | none => simpa [monitor, hp] using hst
      | some th =>
          cases hgg : pyStartsWith a "swth" with
          | false => simpa [monitor, hp, hgg] using hst
          | true =>
              rw [monitor_store_valid w st c t a th hp hgg]
              exact Store.nodupKeys_insert _ _ hst
    · simpa [monitor] using hst
  · unfold stop
    cases hf : Store.find st (toString c) with
    | none => simpa [hf] using hst
    | some sub => simpa [hf] using Store.nodupKeys_erase (toString c) hst

/-- C4 witness: `/monitor 2 swtha` then `/monitor 3 swthb` from
subscriber 7, starting from the empty store. -/
theorem monitor_update_semantics_witness :
    Store.find (monitor (fun _ => .netError)
        (monitor (fun _ => .netError) [] 7 ["2", "swtha"]).1 7
        ["3", "swthb"]).1 (toString (7 : Int)) = some ⟨3, "swthb"⟩
    ∧ Store.countKey (monitor (fun _ => .netError)
        (monitor (fun _ => .netError) [] 7 ["2", "swtha"]).1 7
        ["3", "swthb"]).1 (toString (7 : Int)) = 1
    ∧ Store.NodupKeys (monitor (fun _ => .netError)
        (monitor (fun _ => .netError) [] 7 ["2", "swtha"]).1 7
        ["3", "swthb"]).1
    ∧ (∀ (w : String → HttpResp) (st : Store) (c : Int) (ar : List String),
        Store.NodupKeys st →
          Store.NodupKeys (monitor w st c ar).1
          ∧ Store.NodupKeys (stop st c).1) :=
  monitor_update_semantics (fun _ => .netError) (fun _ => .netError)
    [] 7 "2" "swtha" "3" "swthb" 2 3 (by decide) (by decide)
    (by decide) (by decide) (by simp [Store.NodupKeys, Store.keys])

/-- C5: a valid `/monitor` from the empty store followed by `/stop`
leaves the store empty again, with the emptied mapping persisted and
the stop confirmed; `/check` with no argument then reports that no
monitoring is configured; and a `/stop` with no existing subscription
changes nothing, saves nothing, and replies accordingly. -/
theorem monitor_then_stop (w1 w2 : String → HttpResp) (cid : Int)
    (t a : String) (th : Rat)
    (ht : pyParseFloat t = some th)
    (hg : pyStartsWith a "swth" = true) :
    stop (monitor w1 [] cid [t, a]).1 cid
        = ([], [.save [], .reply .monitoringStopped])
    ∧ check w2 (stop (monitor w1 [] cid [t, a]).1 cid).1 cid []
        = ([], [.logInfo (.checkReceived (toString cid)), .reply .checking,
                .logInfo .currentUserData, .reply .usageCheckOrMonitor],
           none)
    ∧ stop [] cid = ([], [.reply .wasNotMonitoring]) := by
  have hs1 : (monitor w1 [] cid [t, a]).1 = [(toString cid, ⟨th, a⟩)] := by
    rw [monitor_store_valid w1 [] cid t a th ht hg]; rfl
  have hstop : stop (monitor w1 [] cid [t, a]).1 cid
      = ([], [.save [], .reply .monitoringStopped]) := by
    rw [hs1]; simp [stop, Store.find, Store.erase]
  refine ⟨hstop, ?_, by simp [stop, Store.find]⟩
  rw [hstop]
  simp [check, Store.find]

/-- C5 witness: `/monitor 2 swtha` then `/stop` for subscriber 7. -/
theorem monitor_then_stop_witness :
    stop (monitor (fun _ => .netError) [] 7 ["2", "swtha"]).1 7
        = ([], [.save [], .reply .monitoringStopped])
    ∧ check (fun _ => .netError)
        (stop (monitor (fun _ => .netError) [] 7 ["2", "swtha"]).1 7).1 7 []
        = ([], [.logInfo (.checkReceived (toString (7 : Int))),
                .reply .checking, .logInfo .currentUserData,
                .reply .usageCheckOrMonitor], none)
    ∧ stop [] 7 = ([], [.reply .wasNotMonitoring]) :=
  monitor_then_stop (fun _ => .netError) (fun _ => .netError) 7 "2" "swtha"
    2 (by decide) (by decide)

/-- C8: one periodic cycle visits every subscription of the snapshot in
order; when every chat id is numeric and every fetch returns, the
pushes sent are exactly one alert per subscription whose fetched value
is strictly below its threshold, and one unable-to-fetch notice per
subscription whose fetch returned the `None` outcome — and the cycle
raises nothing. -/
theorem periodic_cycle_notifications (w : String → HttpResp)
    (store : Store) (ci : String → Int) (r : String → Option Rat)
    (hnd : Store.NodupKeys store)
    (hci : ∀ p ∈ store, pyInt p.1 = some (ci p.1))
    (hr : ∀ p ∈ store, (checkHealthFactor w p.2.address).2
            = Except.ok (r p.2.address)) :
    pushesOf (periodicCheck w store).1 = specPushes ci r store
    ∧ (periodicCheck w store).2 = none := by
  induction store with
  | nil => exact ⟨rfl, rfl⟩
  | cons p rest ih =>
      obtain ⟨c, sub⟩ := p
      have hfind : Store.find ((c, sub) :: rest) c = some sub := by
        simp [Store.find]
      have hhead := checkAndNotify_ok w ((c, sub) :: rest) c (ci c) sub
        (r sub.address) (hci (c, sub) (List.mem_cons_self _ _)) hfind
        (hr (c, sub) (List.mem_cons_self _ _))
      rw [Store.NodupKeys, Store.keys_cons, List.nodup_cons] at hnd
      have htail : runTasks w ((c, sub) :: rest) (Store.keys rest)
          = runTasks w rest (Store.keys rest) := by
        apply runTasks_congr
        intro k hk
        have hkc : ¬ c = k := fun he => hnd.1 (he ▸ hk)
        simp [Store.find, hkc]
      have hrest := ih hnd.2
        (fun q hq => hci q (List.mem_cons_of_mem _ hq))
        (fun q hq => hr q (List.mem_cons_of_mem _ hq))
      have hkeys : Store.keys ((c, sub) :: rest) = c :: Store.keys rest :=
        rfl
      constructor
      · show pushesOf (runTasks w ((c, sub) :: rest)
            (Store.keys ((c, sub) :: rest))).1 = _
        rw [hkeys, runTasks_cons, pushesOf_append, hhead.1, htail]
        rw [show runTasks w rest (Store.keys rest) = periodicCheck w rest
          from rfl, hrest.1]
        simp [specPushes]
      · show (runTasks w ((c, sub) :: rest)
            (Store.keys ((c, sub) :: rest))).2 = _
        rw [hkeys, runTasks_cons]
        dsimp only
        rw [hhead.2, htail]
        rw [show runTasks w rest (Store.keys rest) = periodicCheck w rest
          from rfl, hrest.2]
        rfl

/-- C8 witness: the claim's own instance — A at threshold 2 with health
1, B at threshold 1 with health 5 — produces exactly one alert, to A,
none to B. -/
theorem periodic_cycle_notifications_witness :
    pushesOf (periodicCheck
      (fun a => if a = "swthA"
        then .resp 200 true (some (.jobj [("health_factor", .jnum 1)]))
        else .resp 200 true (some (.jobj [("health_factor", .jnum 5)])))
      [("1", ⟨2, "swthA"⟩), ("2", ⟨1, "swthB"⟩)]).1
      = [((1 : Int), Msg.alert "swthA" 1 2)] :=
  ((periodic_cycle_notifications
      (fun a => if a = "swthA"
        then .resp 200 true (some (.jobj [("health_factor", .jnum 1)]))
        else .resp 200 true (some (.jobj [("health_factor", .jnum 5)])))
      [("1", ⟨2, "swthA"⟩), ("2", ⟨1, "swthB"⟩)]
      (fun s => if s = "1" then 1 else 2)
      (fun a => if a = "swthA" then some 1 else some 5)
      (by simp only [Store.NodupKeys]; decide)
      (by intro p hp
          simp only [List.mem_cons, List.not_mem_nil, or_false] at hp
          rcases hp with rfl | rfl <;> rfl)
      (by intro p hp
          simp only [List.mem_cons, List.not_mem_nil, or_false] at hp
          rcases hp with rfl | rfl <;> rfl)).1).trans (by decide)

/-- C10: the alert condition is strict — with a subscription present and
a fetched value, the alert push is sent exactly when the value is
strictly below the threshold, so a value exactly equal to the threshold
sends nothing. -/
theorem alert_strictly_below_threshold (w : String → HttpResp)
    (store : Store) (cid : String) (n : Int) (sub : Subscription)
    (hf : Rat)
    (h1 : pyInt cid = some n) (h2 : Store.find store cid = some sub)
    (h3 : (checkHealthFactor w sub.address).2 = .ok (some hf)) :
    pushesOf (checkAndNotify w store cid).1
        = (if hf < sub.threshold
           then [(n, Msg.alert sub.address hf sub.threshold)] else [])
    ∧ (hf = sub.threshold → pushesOf (checkAndNotify w store cid).1 = []) := by
  have main := (checkAndNotify_ok w store cid n sub (some hf) h1 h2 h3).1
  rw [main]
  constructor
  · simp [specPushOf]
  · intro he
    simp [specPushOf, he]

/-- C10 witness: fetched value 2 equal to threshold 2 sends no push. -/
theorem alert_strictly_below_threshold_witness :
    pushesOf (checkAndNotify
      (fun _ => .resp 200 true (some (.jobj [("health_factor", .jnum 2)])))
      [("5", ⟨2, "swthA"⟩)] "5").1 = [] :=
  (alert_strictly_below_threshold
    (fun _ => .resp 200 true (some (.jobj [("health_factor", .jnum 2)])))
    [("5", ⟨2, "swthA"⟩)] "5" 5 ⟨2, "swthA"⟩ 2
    (by decide) (by decide) rfl).2 rfl

end Demex
